import Mathlib

/-!
Shallow embedding of the pyfolioclient core (token lifecycle manager,
cursor pagination iterator, generic request dispatcher) from
src/pyfolioclient/foliobaseclient.py, src/pyfolioclient/_decorators.py and
src/pyfolioclient/exceptions.py, together with theorems settling the
frozen claims about the specification.

Modelling conventions:
* Timestamps are integers (seconds); the ISO-8601 parsing performed by
  datetime.fromisoformat is abstracted: an authentication response carries
  its accessTokenExpiration already as an integer, and both places in the
  source that parse the same string are modelled as reading that integer.
* Python exceptions are values: httpx-level exceptions (ConnectError,
  TimeoutException, HTTPStatusError) form Exc together with a pass-through
  constructor for ordinary Python exceptions, which the decorator does not
  catch.
* Server behaviour is an explicit parameter: each outbound request is given
  its transport outcome (a response, a connection failure, or a timeout).
-/

namespace PyFolio

/-- Python-level exceptions that can reach a caller of the client. -/
inductive PyErr where
  | connectionError : PyErr
  | timeoutError : PyErr
  | itemNotFoundError : PyErr
  | runtimeError (msg : String) : PyErr
  | valueError (msg : String) : PyErr
  | keyError (key : String) : PyErr
  | typeError : PyErr
  | jsonDecodeError : PyErr
deriving DecidableEq, Repr

/-- Exceptions as seen inside a decorated body: the three httpx exception
classes caught by the decorator in _decorators.py, plus a pass-through
constructor for every other Python exception (the decorator has no handler
for those, so they propagate unchanged). -/
inductive Exc where
  | connectError : Exc
  | timeout : Exc
  | statusError (code : Nat) : Exc
  | py (e : PyErr) : Exc
deriving DecidableEq, Repr

/-- The exception_handler decorator of _decorators.py: a ConnectError is
re-raised as ConnectionError, a TimeoutException as TimeoutError; an
HTTPStatusError raises ItemNotFoundError when the status is 404 and
otherwise RETURNS the integer status code; any other exception propagates.
The normal return channel is the left summand, the integer status channel
the right one. -/
def exception_handler {α : Type} : Except Exc α → Except PyErr (α ⊕ Nat)
  | .ok v => .ok (.inl v)
  | .error .connectError => .error .connectionError
  | .error .timeout => .error .timeoutError
  | .error (.statusError code) =>
      if code = 404 then .error .itemNotFoundError else .ok (.inr code)
  | .error (.py e) => .error e

/-- Token state of FolioBaseClient (foliobaseclient.py lines 136-141):
access token, refresh token, hard expiry, and buffered (soft) expiry. -/
structure Session where
  access_token : Option String
  refresh_token : Option String
  token_expiration : Int
  token_expiration_with_buffer : Int
deriving DecidableEq, Repr

/-- TOKEN_REFRESH_BUFFER class attribute (10 seconds). -/
def TOKEN_REFRESH_BUFFER : Int := 10

/-- Buffer adjustment _adjust_for_buffer: subtract the refresh buffer from
the expiration timestamp (foliobaseclient.py lines 227-242). -/
def _adjust_for_buffer (expiration : Int) : Int :=
  expiration - TOKEN_REFRESH_BUFFER

/-- Response of the login-with-expiry or refresh endpoint: HTTP status,
the folioAccessToken and folioRefreshToken cookies (absent when the server
did not set them), and the accessTokenExpiration field of the JSON body. -/
structure AuthResp where
  status : Nat
  accessCookie : Option String
  refreshCookie : Option String
  expiration : Int
deriving DecidableEq, Repr

/-- Transport outcome of one authentication request. -/
inductive AuthTransport where
  | resp (r : AuthResp) : AuthTransport
  | connectFail : AuthTransport
  | timedOut : AuthTransport
deriving DecidableEq, Repr

/-- Response.raise_for_status of httpx: it raises HTTPStatusError for
every response whose status code is not a 2xx success — 1xx and 3xx
included (an httpx client does not follow redirects by default, so a 3xx
response surfaces here and raises). -/
def raise_for_status (status : Nat) : Except Exc Unit :=
  if 200 ≤ status ∧ status < 300 then .ok ()
  else .error (.statusError status)

/-- Body of _retrieve_token (foliobaseclient.py lines 171-225), before the
decorator is applied. The refresh flag selects the /authn/refresh flow
(tokens presented as cookies) versus the /authn/login-with-expiry flow
(username/password payload; stale x-okapi-token header popped); either way
the response is processed identically: raise_for_status (raising on every
non-2xx status), then RuntimeError when the folioAccessToken cookie is
missing, then the four token fields are assigned. On every raising path
the assignments have not yet happened. -/
def _retrieve_token_body (refresh : Bool) (t : AuthTransport) (s : Session) :
    Except Exc Session :=
  match t with
  | .connectFail => .error .connectError
  | .timedOut => .error .timeout
  | .resp r =>
      match raise_for_status r.status with
      | .error e => .error e
      | .ok _ =>
          if r.accessCookie.isNone then
            .error (.py (.runtimeError "No access token received"))
          else
            .ok { access_token := r.accessCookie
                  refresh_token := r.refreshCookie
                  token_expiration := r.expiration
                  token_expiration_with_buffer :=
                    _adjust_for_buffer r.expiration }

/-- Decorated _retrieve_token as callers see it: the body wrapped in
exception_handler. The Session component is the token state after the
call (unchanged whenever the body raised, since every raise precedes the
assignments); the Except component is the Python-level outcome, where
`some code` is the integer status the decorator returns for a non-404
HTTPStatusError and `none` is the normal None return. The unused refresh
flag value still selects which endpoint the request went to. -/
def _retrieve_token (refresh : Bool) (t : AuthTransport) (s : Session) :
    Session × Except PyErr (Option Nat) :=
  match exception_handler (_retrieve_token_body refresh t s) with
  | .ok (.inl s') => (s', .ok none)
  | .ok (.inr code) => (s, .ok (some code))
  | .error e => (s, .error e)

/-- Token manager _manage_token (foliobaseclient.py lines 244-261): compare now with the
two expiry fields; refresh in the buffer window, re-login after hard
expiry, otherwise do nothing. tRefresh and tLogin are the transport
outcomes the server would give to a refresh respectively login request;
the branch that issues no request uses neither. The returned integer of a
soft-failed _retrieve_token is discarded. -/
def _manage_token (now : Int) (tRefresh tLogin : AuthTransport) (s : Session) :
    Session × Except PyErr Unit :=
  if s.token_expiration_with_buffer < now ∧ now < s.token_expiration then
    let p := _retrieve_token true tRefresh s
    (p.1, p.2.map fun _ => ())
  else if s.token_expiration < now then
    let p := _retrieve_token false tLogin s
    (p.1, p.2.map fun _ => ())
  else
    (s, .ok ())

/-- FolioBaseClient.__init__ (foliobaseclient.py lines 123-148): reject a
non-positive timeout with ValueError before anything else (environment
loading and the HTTP client construction are not modelled); initialise the
token fields from two consecutive datetime.now readings t1 and t2 (line
138 assigns token_expiration from the first reading, lines 139-141 assign
token_expiration_with_buffer from the second); then perform the initial
login via _retrieve_token. A login failure that the decorator converts to
an integer return value is discarded and construction still completes; a
raised exception propagates out of the constructor. -/
def folio_init (timeout t1 t2 : Int) (tLogin : AuthTransport) :
    Except PyErr Session :=
  if timeout ≤ 0 then .error (.valueError "Timeout must be a positive integer")
  else
    let s0 : Session := { access_token := none, refresh_token := none,
                          token_expiration := t1,
                          token_expiration_with_buffer := t2 }
    match _retrieve_token false tLogin s0 with
    | (s1, .ok _) => .ok s1
    | (_, .error e) => .error e

/-- Minimal JSON values for decoded response bodies. -/
inductive Json where
  | obj (fields : List (String × Json)) : Json
  | arr (elems : List Json) : Json
  | str (s : String) : Json
  | num (n : Int) : Json
  | bool (b : Bool) : Json
  | null : Json
deriving BEq, Repr

/-- Response of a data request: HTTP status and decoded JSON body when the
body is valid JSON (`none` models a body on which response.json() raises
JSONDecodeError). -/
structure DataResp where
  status : Nat
  body : Option Json
deriving BEq, Repr

/-- Transport outcome of one data request. -/
inductive DataTransport where
  | resp (r : DataResp) : DataTransport
  | connectFail : DataTransport
  | timedOut : DataTransport
deriving BEq, Repr

/-- Python subscripting response.json()[key] with a string key: on an
object it yields the value or raises KeyError when the key is absent; on
any non-object JSON value string subscripting raises (a TypeError in
CPython, carried here on the generic pass-through channel). -/
def json_index (j : Json) (key : String) : Except Exc Json :=
  match j with
  | .obj fields =>
      match fields.lookup key with
      | some v => .ok v
      | none => .error (.py (.keyError key))
  | _ => .error (.py .typeError)

/-- Body of get_data after _manage_token (foliobaseclient.py lines
310-316): issue the GET (query parameters are built from query and limit
and only select which response the transport returns, so they are folded
into the DataTransport argument), raise_for_status, decode the JSON body
(raising JSONDecodeError on a non-JSON body, a path get_data does not
guard), and extract by key when key is non-empty. -/
def get_data_dispatch (key : String) (t : DataTransport) : Except Exc Json :=
  match t with
  | .connectFail => .error .connectError
  | .timedOut => .error .timeout
  | .resp r =>
      match raise_for_status r.status with
      | .error e => .error e
      | .ok _ =>
          match r.body with
          | none => .error (.py .jsonDecodeError)
          | some j => if key = "" then .ok j else json_index j key

/-- get_data (foliobaseclient.py lines 282-316): _manage_token, then the
dispatch, the whole body wrapped by exception_handler. The Session
component is the token state afterwards; the right summand of the result
is the integer status returned by the decorator for a non-404
HTTPStatusError. -/
def get_data (key : String) (now : Int) (tRefresh tLogin : AuthTransport)
    (t : DataTransport) (s : Session) : Session × Except PyErr (Json ⊕ Nat) :=
  let m := _manage_token now tRefresh tLogin s
  match m.2 with
  | .error e => (m.1, .error e)
  | .ok _ =>
      match exception_handler (get_data_dispatch key t) with
      | .ok v => (m.1, .ok v)
      | .error e => (m.1, .error e)

/-- Body of put_data after the payload check and _manage_token
(foliobaseclient.py lines 410-417): issue the PUT, raise_for_status, then
return the decoded JSON body, or the integer status code when decoding
raises JSONDecodeError (put_data catches that one exception itself). -/
def put_data_dispatch (t : DataTransport) : Except Exc (Json ⊕ Nat) :=
  match t with
  | .connectFail => .error .connectError
  | .timedOut => .error .timeout
  | .resp r =>
      match raise_for_status r.status with
      | .error e => .error e
      | .ok _ =>
          match r.body with
          | some j => .ok (.inl j)
          | none => .ok (.inr r.status)

/-- put_data (foliobaseclient.py lines 390-417): the decorated body first
raises ValueError on an empty payload (a dict is falsy exactly when
empty), BEFORE _manage_token and before any request; otherwise it manages
the token and dispatches. The payload is a list of key/value pairs (a
Python dict); its entries only shape the request body, which the
DataTransport argument already answers. The outer left summand is a
decoded JSON response, the inner right summand the status code of a
body-less success, the outer right summand the decorator's integer status
channel. -/
def put_data (payload : List (String × Json)) (now : Int)
    (tRefresh tLogin : AuthTransport) (t : DataTransport) (s : Session) :
    Session × Except PyErr ((Json ⊕ Nat) ⊕ Nat) :=
  if payload.isEmpty then
    (s, .error (.valueError "Payload cannot be empty"))
  else
    let m := _manage_token now tRefresh tLogin s
    match m.2 with
    | .error e => (m.1, .error e)
    | .ok _ => (m.1, exception_handler (put_data_dispatch t))

/-- Logout method _logout (foliobaseclient.py lines 263-280): the decorated body runs
_manage_token, then POSTs to /authn/logout with the stored tokens as
cookies and calls raise_for_status. An exception raised by _manage_token
is already a Python-level one (converted by _retrieve_token's own
decorator), so the outer decorator passes it through. -/
def _logout (now : Int) (tRefresh tLogin : AuthTransport)
    (tLogout : AuthTransport) (s : Session) :
    Session × Except PyErr (Option Nat) :=
  let m := _manage_token now tRefresh tLogin s
  match m.2 with
  | .error e => (m.1, .error e)
  | .ok _ =>
      let body : Except Exc Unit :=
        match tLogout with
        | .connectFail => .error .connectError
        | .timedOut => .error .timeout
        | .resp r => raise_for_status r.status
      match exception_handler body with
      | .ok (.inl _) => (m.1, .ok none)
      | .ok (.inr code) => (m.1, .ok (some code))
      | .error e => (m.1, .error e)

/-- Context-manager exit __exit__ (foliobaseclient.py lines 153-156): call _logout, then close
the HTTP client. The Bool records whether client.close() was reached: when
_logout raises, the exception propagates out of __exit__ first and the
close on lines 155-156 is never executed (the hasattr guard is true for a
fully constructed client and is not modelled further). -/
def folio_exit (now : Int) (tRefresh tLogin tLogout : AuthTransport)
    (s : Session) : Except PyErr Unit × Bool :=
  match (_logout now tRefresh tLogin tLogout s).2 with
  | .error e => (.error e, false)
  | .ok _ => (.ok (), true)

/-- One record of a paginated listing: the optional value of its "id"
field (none when the field is absent or falsy), and an opaque payload
standing for the rest of the record's fields. Identifiers are naturals;
the all-zero UUID sentinel uuid.UUID(int=0) is 0 and every real
identifier sorts strictly after it. -/
structure Record where
  rid : Option Nat
  payload : Nat
deriving DecidableEq, Repr

/-- Last element of the nonempty list r :: rs, i.e. Python data[-1]. -/
def lastRec : Record → List Record → Record
  | r, [] => r
  | _, r' :: rs => lastRec r' rs

/-- What one page request decodes to: a list of records, or a truthy
non-list value (the shape on which iter_data raises RuntimeError). A falsy
non-list behaves exactly like an empty record list in the while condition
and needs no separate constructor. -/
inductive PageResp where
  | records (rs : List Record) : PageResp
  | malformed : PageResp
deriving DecidableEq, Repr

/-- Observable events of one iter_data run: a record produced to the
consumer, or a page request issued with the given cursor (the composite
query id > cursor [AND (filter)] sortBy id, with the page size passed as
the limit parameter). -/
inductive PEv where
  | yielded (r : Record) : PEv
  | requested (cursor : Nat) : PEv
deriving DecidableEq, Repr

/-- How one iter_data run ended: the while loop exited normally, an
exception was raised, or the step budget ran out before either (the
concrete-fuel image of non-termination). -/
inductive POutcome where
  | completed : POutcome
  | raised (e : PyErr) : POutcome
  | fuelOut : POutcome
deriving DecidableEq, Repr

/-- The while loop of iter_data (foliobaseclient.py lines 353-364), with
fuel bounding the number of iterations. serve maps (cursor, limit) to the
page the inner get_data call decodes to. Each iteration: exit when data is
falsy; raise RuntimeError when data is not a list; yield every record of
the page in order; read the id of the last record; when it is present
(truthy) issue the next request with it as cursor, and when it is absent
re-enter the loop with data UNCHANGED. -/
def iter_pages (serve : Nat → Nat → PageResp) (limit : Nat) :
    PageResp → Nat → List PEv × POutcome
  | .records [], _ => ([], .completed)
  | _, 0 => ([], .fuelOut)
  | .malformed, _ + 1 => ([], .raised (.runtimeError "Invalid response format"))
  | .records (r :: rs), fuel + 1 =>
      let data := r :: rs
      let ys := data.map PEv.yielded
      match (lastRec r rs).rid with
      | some c =>
          let next := iter_pages serve limit (serve c limit) fuel
          (ys ++ PEv.requested c :: next.1, next.2)
      | none =>
          let next := iter_pages serve limit (.records data) fuel
          (ys ++ next.1, next.2)

/-- Body of iter_data (foliobaseclient.py lines 344-364): raise ValueError
when limit is 0 before doing anything else; otherwise request the first
page with the all-zero sentinel cursor and run the while loop. The events
list records every request issued and every record yielded, in order. -/
def iter_data (serve : Nat → Nat → PageResp) (limit fuel : Nat) :
    List PEv × POutcome :=
  if limit = 0 then ([], .raised (.valueError "Limit cannot be 0 for iterator"))
  else
    let next := iter_pages serve limit (serve 0 limit) fuel
    (PEv.requested 0 :: next.1, next.2)

/-- The records a trace produced to the consumer, in order. -/
def yieldsOf (evs : List PEv) : List Record :=
  evs.filterMap fun e =>
    match e with
    | .yielded r => some r
    | .requested _ => none

/-- The cursors of the requests a trace issued, in order. -/
def requestsOf (evs : List PEv) : List Nat :=
  evs.filterMap fun e =>
    match e with
    | .yielded _ => none
    | .requested c => some c

/-- Modelled from Python generator-function semantics: since iter_data is
a generator function (its body contains yield), calling it only allocates
a generator object capturing the arguments; none of the body runs until
the generator is first advanced, so the call itself cannot raise. -/
structure GeneratorObject where
  serve : Nat → Nat → PageResp
  limit : Nat

/-- Calling iter_data: allocate the generator object, deferring the body. -/
def iter_data_call (serve : Nat → Nat → PageResp) (limit : Nat) :
    Except PyErr GeneratorObject :=
  .ok { serve := serve, limit := limit }

/-- First advancing the generator returned by an iter_data call: the body
runs from its start. -/
def GeneratorObject.first_resume (g : GeneratorObject) (fuel : Nat) :
    List PEv × POutcome :=
  iter_data g.serve g.limit fuel

/-- A record with identifier i and payload f i. -/
def mkRec (f : Nat → Nat) (i : Nat) : Record :=
  { rid := some i, payload := f i }

/-- The server model of claim C1: a fixed filter matches the records whose
identifiers form the list l (strictly ascending, immutable, unique), the
payload of record i is f i, and the server honours the composite query
faithfully: for cursor c and page size P it returns the first P matching
records with identifier strictly greater than c, in ascending order. -/
def serve_sorted (l : List Nat) (f : Nat → Nat) : Nat → Nat → PageResp :=
  fun c P => .records (((l.filter fun i => decide (c < i)).take P).map (mkRec f))

/-! ## Theorems about the claims -/

/-- C2: for every observation of the current time before an outbound
request, _manage_token performs exactly one of three actions: when
soft_expires_at < now < expires_at it refreshes via the refresh-token flow
(_retrieve_token with refresh, the login transport never consulted); when
expires_at < now it performs a full re-authentication with
username/password (_retrieve_token without refresh, the refresh transport
never consulted); otherwise it is a no-op and the token and all session
state are unchanged, no request being issued at all. -/
theorem manage_token_trichotomy (s : Session) (now : Int) :
    (s.token_expiration_with_buffer < now ∧ now < s.token_expiration →
      ∀ tRefresh tLogin,
        _manage_token now tRefresh tLogin s =
          ((_retrieve_token true tRefresh s).1,
           (_retrieve_token true tRefresh s).2.map fun _ => ())) ∧
    (s.token_expiration < now →
      ∀ tRefresh tLogin,
        _manage_token now tRefresh tLogin s =
          ((_retrieve_token false tLogin s).1,
           (_retrieve_token false tLogin s).2.map fun _ => ())) ∧
    (¬(s.token_expiration_with_buffer < now ∧ now < s.token_expiration) →
      ¬(s.token_expiration < now) →
      ∀ tRefresh tLogin, _manage_token now tRefresh tLogin s = (s, .ok ())) := by
  refine ⟨fun h tR tL => ?_, fun h tR tL => ?_, fun h1 h2 tR tL => ?_⟩
  · simp only [_manage_token, if_pos h]
  · have h1 : ¬(s.token_expiration_with_buffer < now ∧
        now < s.token_expiration) := by omega
    simp only [_manage_token, if_neg h1, if_pos h]
  · simp only [_manage_token, if_neg h1, if_neg h2]

/-- Witness for manage_token_trichotomy: a session with expiry 20 and soft
expiry 10, observed at times 15 (refresh window), 25 (hard-expired) and 5
(token still fresh). -/
theorem manage_token_trichotomy_witness :
    _manage_token 15 .connectFail .timedOut ⟨none, none, 20, 10⟩ =
      (⟨none, none, 20, 10⟩, .error .connectionError) ∧
    _manage_token 25 .connectFail .timedOut ⟨none, none, 20, 10⟩ =
      (⟨none, none, 20, 10⟩, .error .timeoutError) ∧
    _manage_token 5 .connectFail .timedOut ⟨none, none, 20, 10⟩ =
      (⟨none, none, 20, 10⟩, .ok ()) := by
  refine ⟨?_, ?_, ?_⟩
  · exact ((manage_token_trichotomy ⟨none, none, 20, 10⟩ 15).1
      (by decide) .connectFail .timedOut).trans rfl
  · exact ((manage_token_trichotomy ⟨none, none, 20, 10⟩ 25).2.1
      (by decide) .connectFail .timedOut).trans rfl
  · exact (manage_token_trichotomy ⟨none, none, 20, 10⟩ 5).2.2
      (by decide) (by decide) .connectFail .timedOut

/-- C8: when a login or refresh request comes back with an HTTP error
status other than 404, no exception reaches the caller of _manage_token:
the decorator turns the HTTPStatusError into an integer return value,
which the caller of _retrieve_token discards, and the access token,
refresh token and both expiry timestamps keep their previous values. -/
theorem manage_token_soft_http_failure (s : Session) (now : Int)
    (r : AuthResp) (h400 : 400 ≤ r.status) (h404 : r.status ≠ 404) :
    (s.token_expiration_with_buffer < now ∧ now < s.token_expiration →
      ∀ tLogin, _manage_token now (.resp r) tLogin s = (s, .ok ())) ∧
    (s.token_expiration < now →
      ∀ tRefresh, _manage_token now tRefresh (.resp r) s = (s, .ok ())) := by
  have hret : ∀ refresh, _retrieve_token refresh (.resp r) s = (s, .ok (some r.status)) := by
    intro refresh
    have hns : ¬(200 ≤ r.status ∧ r.status < 300) := by omega
    simp [_retrieve_token, _retrieve_token_body, raise_for_status,
      exception_handler, hns, h404]
  refine ⟨fun h tL => ?_, fun h tR => ?_⟩
  · rw [(manage_token_trichotomy s now).1 h (.resp r) tL, hret]
    rfl
  · rw [(manage_token_trichotomy s now).2.1 h tR (.resp r), hret]
    rfl

/-- Witness for manage_token_soft_http_failure: a 500 response to the
refresh request at time 15 and to the login request at time 25, against a
session with expiry 20 and soft expiry 10, both leave the session intact
and raise nothing. -/
theorem manage_token_soft_http_failure_witness :
    _manage_token 15 (.resp ⟨500, none, none, 0⟩) .connectFail
      ⟨none, none, 20, 10⟩ = (⟨none, none, 20, 10⟩, .ok ()) ∧
    _manage_token 25 .connectFail (.resp ⟨500, none, none, 0⟩)
      ⟨none, none, 20, 10⟩ = (⟨none, none, 20, 10⟩, .ok ()) :=
  ⟨(manage_token_soft_http_failure ⟨none, none, 20, 10⟩ 15 ⟨500, none, none, 0⟩
      (by decide) (by decide)).1 (by decide) .connectFail,
   (manage_token_soft_http_failure ⟨none, none, 20, 10⟩ 25 ⟨500, none, none, 0⟩
      (by decide) (by decide)).2 (by decide) .connectFail⟩

/-- C4, evaluated on the code: of the three mappings the claim lists, a
404 response does raise ItemNotFoundError and a connection failure does
raise ConnectionError, but a stubbed 400 response does NOT raise
BadRequestError: the decorator in _decorators.py has no 400 branch (and
imports from the exceptions module that does not even define
BadRequestError), so it returns the integer 400 on the soft status
channel, contradicting the repository's own docstrings and its own test
test_bad_requests, which expects BadRequestError to be raised. -/
theorem exception_handler_status_mapping :
    exception_handler (α := Unit) (.error (.statusError 404)) =
      .error .itemNotFoundError ∧
    exception_handler (α := Unit) (.error .connectError) =
      .error .connectionError ∧
    exception_handler (α := Unit) (.error .timeout) = .error .timeoutError ∧
    exception_handler (α := Unit) (.error (.statusError 400)) =
      .ok (.inr 400) := by
  refine ⟨?_, rfl, rfl, ?_⟩ <;> simp [exception_handler]

/-- C7: each local precondition violation raises ValueError before any
network call is issued and without touching token state: iter_data with
limit 0 raises with an empty event trace (no request), whatever the server
and however long it could have run; put_data with an empty payload raises
with the session unchanged, for every clock reading and server behaviour;
construction with a non-positive timeout raises for every login transport,
so no session is ever created. -/
theorem precondition_violations_fail_fast :
    (∀ serve fuel, iter_data serve 0 fuel =
        ([], .raised (.valueError "Limit cannot be 0 for iterator"))) ∧
    (∀ now tRefresh tLogin t s,
        put_data [] now tRefresh tLogin t s =
          (s, .error (.valueError "Payload cannot be empty"))) ∧
    (∀ timeout t1 t2 tLogin, timeout ≤ 0 →
        folio_init timeout t1 t2 tLogin =
          .error (.valueError "Timeout must be a positive integer")) := by
  refine ⟨fun serve fuel => rfl, fun now tR tL t s => rfl,
    fun timeout t1 t2 tL h => ?_⟩
  simp [folio_init, h]

/-- Witness for precondition_violations_fail_fast at concrete inputs:
page size 0, the empty payload, and timeout 0. -/
theorem precondition_violations_fail_fast_witness :
    iter_data (fun _ _ => .records []) 0 5 =
      ([], .raised (.valueError "Limit cannot be 0 for iterator")) ∧
    put_data [] 3 .connectFail .connectFail .connectFail ⟨none, none, 20, 10⟩ =
      (⟨none, none, 20, 10⟩, .error (.valueError "Payload cannot be empty")) ∧
    folio_init 0 1 2 .connectFail =
      .error (.valueError "Timeout must be a positive integer") :=
  ⟨precondition_violations_fail_fast.1 (fun _ _ => .records []) 5,
   precondition_violations_fail_fast.2.1 3 .connectFail .connectFail
     .connectFail ⟨none, none, 20, 10⟩,
   precondition_violations_fail_fast.2.2 0 1 2 .connectFail (by omega)⟩

/-- C9: calling iter_data never raises at call time, because it is a
generator function: the call merely allocates a generator object; with
limit 0 the ValueError surfaces only when the consumer first advances the
generator, before any record is yielded and before any request is
issued (empty event trace). -/
theorem iter_data_call_never_raises (serve : Nat → Nat → PageResp)
    (limit fuel : Nat) :
    (∃ g, iter_data_call serve limit = .ok g) ∧
    ∃ g, iter_data_call serve 0 = .ok g ∧
      g.first_resume fuel =
        ([], .raised (.valueError "Limit cannot be 0 for iterator")) :=
  ⟨⟨_, rfl⟩, ⟨_, rfl, rfl⟩⟩

/-- C10: when get_data is called with a non-empty key and a 2xx response
(raise_for_status passes) whose body decodes to a JSON object lacking that
key, the resulting KeyError propagates to the caller untranslated: the
decorator catches only connection, timeout and HTTP-status errors, so the
error that reaches the caller is outside the documented taxonomy. -/
theorem get_data_missing_key_propagates (key : String) (hkey : key ≠ "")
    (fields : List (String × Json)) (hmiss : fields.lookup key = none)
    (status : Nat) (h2a : 200 ≤ status) (h2b : status < 300) (now : Int)
    (tRefresh tLogin : AuthTransport) (s : Session)
    (hok : (_manage_token now tRefresh tLogin s).2 = .ok ()) :
    (get_data key now tRefresh tLogin
        (.resp { status := status, body := some (.obj fields) }) s).2 =
      .error (.keyError key) := by
  have hsucc : 200 ≤ status ∧ status < 300 := ⟨h2a, h2b⟩
  simp [get_data, hok, get_data_dispatch, raise_for_status, json_index,
    hmiss, hkey, exception_handler, hsucc]

/-- Witness for get_data_missing_key_propagates: key "users" against a 200
response whose body is the empty JSON object, with a fresh token so that
_manage_token is a no-op. -/
theorem get_data_missing_key_propagates_witness :
    (get_data "users" 5 .connectFail .connectFail
        (.resp { status := 200, body := some (.obj []) })
        ⟨none, none, 20, 10⟩).2 = .error (.keyError "users") :=
  get_data_missing_key_propagates "users" (by decide) [] rfl 200 (by omega)
    (by omega) 5 .connectFail .connectFail ⟨none, none, 20, 10⟩ rfl

/-- C5, counterexample to the claim as stated: on teardown with a valid
token, a logout attempt that fails with a transport-level connection
failure makes _logout raise ConnectionError out of __exit__, and
client.close() is never executed (the Bool component is false), so the
underlying connection is NOT closed for that outcome. -/
theorem folio_exit_counterexample :
    folio_exit 5 .connectFail .connectFail .connectFail
      ⟨none, none, 20, 10⟩ = (.error .connectionError, false) := rfl

/-- C5 as amended: the connection is closed exactly when _logout returns
without raising. Assuming the preceding token management returned
normally: a logout response with a status below 400 closes the connection
(a 2xx passes raise_for_status; a 1xx/3xx makes raise_for_status raise
HTTPStatusError, which the decorator converts to a discarded non-404
integer either way), a logout response with an HTTP error status other
than 404 is likewise converted into a discarded integer and the
connection is still closed, while a 404 response, a connection failure,
or a timeout raises out of __exit__ and the close is skipped. -/
theorem folio_exit_cases (now : Int) (tRefresh tLogin : AuthTransport)
    (s : Session) (hok : (_manage_token now tRefresh tLogin s).2 = .ok ()) :
    (∀ r : AuthResp, r.status < 400 →
      folio_exit now tRefresh tLogin (.resp r) s = (.ok (), true)) ∧
    (∀ r : AuthResp, 400 ≤ r.status → r.status ≠ 404 →
      folio_exit now tRefresh tLogin (.resp r) s = (.ok (), true)) ∧
    (∀ r : AuthResp, r.status = 404 →
      folio_exit now tRefresh tLogin (.resp r) s =
        (.error .itemNotFoundError, false)) ∧
    folio_exit now tRefresh tLogin .connectFail s =
      (.error .connectionError, false) ∧
    folio_exit now tRefresh tLogin .timedOut s =
      (.error .timeoutError, false) := by
  refine ⟨fun r h => ?_, fun r h h4 => ?_, fun r h => ?_, ?_, ?_⟩
  · by_cases hsucc : 200 ≤ r.status ∧ r.status < 300
    · simp [folio_exit, _logout, hok, raise_for_status, exception_handler,
        hsucc]
    · have h44 : r.status ≠ 404 := by omega
      simp [folio_exit, _logout, hok, raise_for_status, exception_handler,
        hsucc, h44]
  · have hns : ¬(200 ≤ r.status ∧ r.status < 300) := by omega
    simp [folio_exit, _logout, hok, raise_for_status, exception_handler,
      hns, h4]
  · have hns : ¬(200 ≤ r.status ∧ r.status < 300) := by omega
    simp [folio_exit, _logout, hok, raise_for_status, exception_handler,
      hns, h]
  · simp [folio_exit, _logout, hok, exception_handler]
  · simp [folio_exit, _logout, hok, exception_handler]

/-- Witness for folio_exit_cases: a fresh token (no-op management), with
logout answered by 204, 500, 404 and a connection failure. -/
theorem folio_exit_cases_witness :
    folio_exit 5 .connectFail .connectFail
      (.resp ⟨204, none, none, 0⟩) ⟨none, none, 20, 10⟩ = (.ok (), true) ∧
    folio_exit 5 .connectFail .connectFail
      (.resp ⟨500, none, none, 0⟩) ⟨none, none, 20, 10⟩ = (.ok (), true) ∧
    folio_exit 5 .connectFail .connectFail
      (.resp ⟨404, none, none, 0⟩) ⟨none, none, 20, 10⟩ =
      (.error .itemNotFoundError, false) ∧
    folio_exit 5 .connectFail .connectFail .timedOut ⟨none, none, 20, 10⟩ =
      (.error .timeoutError, false) :=
  ⟨(folio_exit_cases 5 .connectFail .connectFail ⟨none, none, 20, 10⟩ rfl).1
      ⟨204, none, none, 0⟩ (by decide),
   (folio_exit_cases 5 .connectFail .connectFail ⟨none, none, 20, 10⟩ rfl).2.1
      ⟨500, none, none, 0⟩ (by decide) (by decide),
   (folio_exit_cases 5 .connectFail .connectFail ⟨none, none, 20, 10⟩ rfl).2.2.1
      ⟨404, none, none, 0⟩ rfl,
   (folio_exit_cases 5 .connectFail .connectFail ⟨none, none, 20, 10⟩ rfl).2.2.2.2⟩

/-- C3, evaluated on the code at the failing input: a server whose first
page is a single record without an "id" field. The claim says the
iterator stops after yielding that page's records; instead, the loop
re-enters with data unchanged, so for every step budget the run is still
going (fuelOut, never completed), it has re-yielded the same record once
per iteration, and no request beyond the initial one was ever issued. -/
theorem iter_data_missing_id_loops (fuel : Nat) :
    iter_data (fun _ _ => .records [{ rid := none, payload := 7 }]) 10 fuel =
      (PEv.requested 0 ::
        List.replicate fuel (PEv.yielded { rid := none, payload := 7 }),
       .fuelOut) := by
  have key : ∀ n, iter_pages (fun _ _ => .records [{ rid := none, payload := 7 }]) 10
      (.records [{ rid := none, payload := 7 }]) n =
      (List.replicate n (PEv.yielded { rid := none, payload := 7 }), .fuelOut) := by
    intro n
    induction n with
    | zero => rfl
    | succ m ih =>
        rw [iter_pages]
        simp only [lastRec, ih, List.replicate_succ]
        rfl
  simp [iter_data, key]

/-- One call of _manage_token as an observation event: the clock reading
and the transport outcomes a refresh or login request would see. -/
structure MEvent where
  now : Int
  tRefresh : AuthTransport
  tLogin : AuthTransport

/-- Token state after one _manage_token call. -/
def manage_step (s : Session) (e : MEvent) : Session :=
  (_manage_token e.now e.tRefresh e.tLogin s).1

/-- Token states at the observation points of a session's lifetime: the
state right after construction and the state after each subsequent
_manage_token call (one per outbound request). -/
def observed_states (s : Session) (evs : List MEvent) : List Session :=
  evs.scanl manage_step s

/-- The buffered-expiry invariant of the spec. -/
def BufferInv (s : Session) : Prop :=
  s.token_expiration_with_buffer ≤ s.token_expiration

/-- A _retrieve_token call either leaves the session untouched or installs
a buffered expiry exactly TOKEN_REFRESH_BUFFER before the hard expiry; in
both cases it preserves the buffered-expiry invariant. -/
theorem retrieve_token_preserves_inv (refresh : Bool) (t : AuthTransport)
    (s : Session) (h : BufferInv s) :
    BufferInv (_retrieve_token refresh t s).1 := by
  match t with
  | .connectFail => exact h
  | .timedOut => exact h
  | .resp r =>
      by_cases hsucc : 200 ≤ r.status ∧ r.status < 300
      · by_cases hc : r.accessCookie.isNone
        · have hstate : (_retrieve_token refresh (.resp r) s).1 = s := by
            simp [_retrieve_token, _retrieve_token_body, raise_for_status,
              exception_handler, hsucc, hc]
          simpa [BufferInv, hstate] using h
        · simp [BufferInv, _retrieve_token, _retrieve_token_body,
            raise_for_status, exception_handler, hsucc, hc,
            _adjust_for_buffer, TOKEN_REFRESH_BUFFER]
      · have hstate : (_retrieve_token refresh (.resp r) s).1 = s := by
          by_cases h44 : r.status = 404 <;>
            simp [_retrieve_token, _retrieve_token_body, raise_for_status,
              exception_handler, hsucc, h44]
        simpa [BufferInv, hstate] using h

/-- One _manage_token call preserves the buffered-expiry invariant. -/
theorem manage_step_preserves_inv (s : Session) (e : MEvent)
    (h : BufferInv s) : BufferInv (manage_step s e) := by
  unfold manage_step _manage_token
  split
  · exact retrieve_token_preserves_inv true e.tRefresh s h
  · split
    · exact retrieve_token_preserves_inv false e.tLogin s h
    · exact h

/-- Invariant propagation along List.scanl. -/
theorem scanl_preserves {σ ε : Type} (f : σ → ε → σ) (P : σ → Prop)
    (hf : ∀ s e, P s → P (f s e)) :
    ∀ (evs : List ε) (s : σ), P s → ∀ s' ∈ List.scanl f s evs, P s' := by
  intro evs
  induction evs with
  | nil =>
      intro s hs s' hmem
      simp only [List.scanl, List.mem_singleton] at hmem
      exact hmem ▸ hs
  | cons e evs ih =>
      intro s hs s' hmem
      simp only [List.scanl, List.mem_cons] at hmem
      rcases hmem with rfl | hmem
      · exact hs
      · exact ih (f s e) (hf s e hs) s' hmem

/-- C6, counterexample to the claim as stated: construction reads the
clock twice (foliobaseclient.py lines 138-141), assigning expires_at from
the first reading (0) and soft_expires_at from the second (1), and when
the initial login fails with an HTTP 500 the decorator converts the error
into a discarded integer, so construction completes with those
initialization values: a session observed immediately after construction
with soft_expires_at = 1 strictly greater than expires_at = 0, violating
the invariant. -/
theorem init_buffer_counterexample :
    ∃ s, folio_init 60 0 1 (.resp ⟨500, none, none, 0⟩) = .ok s ∧
      s.token_expiration < s.token_expiration_with_buffer :=
  ⟨⟨none, none, 0, 1⟩, rfl, by decide⟩

/-- C6 as amended: after every successful login or refresh (a 2xx
response that passes raise_for_status and carries the access cookie) the
buffered expiry equals the hard expiry minus the 10-second buffer (hence
the invariant soft_expires_at ≤ expires_at holds there), and the
invariant holds at every observation point in the lifetime of a session
whose initial authentication succeeded — immediately after such a
construction and after every subsequent _manage_token call, whatever each
call's clock reading and server behaviour. (Without the success proviso
the claim fails: see the counterexample.) -/
theorem token_buffer_invariant :
    (∀ (refresh : Bool) (r : AuthResp) (s : Session),
      200 ≤ r.status → r.status < 300 → r.accessCookie.isSome →
      (_retrieve_token refresh (.resp r) s).1.token_expiration_with_buffer =
        (_retrieve_token refresh (.resp r) s).1.token_expiration - 10) ∧
    (∀ (timeout t1 t2 : Int) (r : AuthResp) (s : Session),
      folio_init timeout t1 t2 (.resp r) = .ok s → 200 ≤ r.status →
      r.status < 300 → r.accessCookie.isSome →
      ∀ evs, ∀ s' ∈ observed_states s evs,
        s'.token_expiration_with_buffer ≤ s'.token_expiration) := by
  have hupd : ∀ (refresh : Bool) (r : AuthResp) (s : Session),
      200 ≤ r.status → r.status < 300 → r.accessCookie.isSome →
      _retrieve_token refresh (.resp r) s =
        ({ access_token := r.accessCookie, refresh_token := r.refreshCookie,
           token_expiration := r.expiration,
           token_expiration_with_buffer := r.expiration - 10 }, .ok none) := by
    intro refresh r s h2a h2b hc
    have hsucc : 200 ≤ r.status ∧ r.status < 300 := ⟨h2a, h2b⟩
    have hcn : ¬r.accessCookie.isNone := by
      simp [Option.isNone_iff_eq_none]
      intro hn
      rw [hn] at hc
      simp at hc
    simp [_retrieve_token, _retrieve_token_body, raise_for_status,
      exception_handler, hsucc, hcn, _adjust_for_buffer,
      TOKEN_REFRESH_BUFFER]
  constructor
  · intro refresh r s h2a h2b hc
    rw [hupd refresh r s h2a h2b hc]
  · intro timeout t1 t2 r s hinit h2a h2b hc evs
    have hs : BufferInv s := by
      by_cases ht : timeout ≤ 0
      · simp [folio_init, ht] at hinit
      · rw [folio_init, if_neg ht] at hinit
        simp only [hupd false r _ h2a h2b hc] at hinit
        simp only [Except.ok.injEq] at hinit
        rw [← hinit]
        simp only [BufferInv]
        omega
    exact scanl_preserves manage_step BufferInv manage_step_preserves_inv
      evs s hs

/-- Witness for token_buffer_invariant: a successful refresh response with
expiry 100 installs buffered expiry 90; a construction whose login
succeeded with that response, followed by one _manage_token call at time
200 whose re-login request fails with a connection refusal and one at
time 95 that refreshes against a timeout, keeps the invariant at every
observed state. -/
theorem token_buffer_invariant_witness :
    (_retrieve_token true (.resp ⟨201, some "tok", some "ref", 100⟩)
        ⟨none, none, 0, 0⟩).1.token_expiration_with_buffer =
      (_retrieve_token true (.resp ⟨201, some "tok", some "ref", 100⟩)
        ⟨none, none, 0, 0⟩).1.token_expiration - 10 ∧
    ∀ s' ∈ observed_states ⟨some "tok", some "ref", 100, 90⟩
        [⟨200, .timedOut, .connectFail⟩, ⟨95, .timedOut, .connectFail⟩],
      s'.token_expiration_with_buffer ≤ s'.token_expiration :=
  ⟨token_buffer_invariant.1 true ⟨201, some "tok", some "ref", 100⟩
      ⟨none, none, 0, 0⟩ (by decide) (by decide) rfl,
   token_buffer_invariant.2 60 0 1 ⟨201, some "tok", some "ref", 100⟩
      ⟨some "tok", some "ref", 100, 90⟩ rfl (by decide) (by decide) rfl
      [⟨200, .timedOut, .connectFail⟩, ⟨95, .timedOut, .connectFail⟩]⟩

/-! ### Pagination completeness (claim C1) -/

theorem lastRec_concat (q : List Record) :
    ∀ (r b : Record), lastRec r (q ++ [b]) = b := by
  induction q with
  | nil => intro r b; rfl
  | cons x xs ih =>
      intro r b
      simp only [List.cons_append, lastRec]
      exact ih x b

theorem lastRec_of_eq_concat (r b : Record) (rs q : List Record)
    (h : r :: rs = q ++ [b]) : lastRec r rs = b := by
  cases q with
  | nil =>
      simp only [List.nil_append, List.cons.injEq] at h
      obtain ⟨rfl, rfl⟩ := h
      rfl
  | cons x xs =>
      simp only [List.cons_append, List.cons.injEq] at h
      obtain ⟨rfl, rfl⟩ := h
      exact lastRec_concat xs r b

theorem filter_gt_of_filter_gt (l : List Nat) (c b : Nat) (hcb : c < b) :
    (l.filter fun x => decide (c < x)).filter (fun x => decide (b < x)) =
      l.filter fun x => decide (b < x) := by
  rw [List.filter_filter]
  apply List.filter_congr
  intro x _
  by_cases hx : b < x
  · have : c < x := lt_trans hcb hx
    simp [hx, this]
  · simp [hx]

/-- In a strictly sorted list, filtering by strictly-greater-than the last
element of the first P elements is the same as dropping those P elements:
the keyset cursor loses nothing and repeats nothing. -/
theorem sorted_filter_gt_last_take :
    ∀ (s : List Nat), s.Sorted (· < ·) → ∀ (P : Nat) (q : List Nat) (b : Nat),
      s.take P = q ++ [b] →
      s.filter (fun x => decide (b < x)) = s.drop P := by
  intro s
  induction s with
  | nil =>
      intro _ P q b h
      simp at h
  | cons a t ih =>
      intro hs P q b h
      cases P with
      | zero => simp at h
      | succ Q =>
          rw [List.take_succ_cons] at h
          cases q with
          | nil =>
              simp only [List.nil_append, List.cons.injEq] at h
              obtain ⟨rfl, htq⟩ := h
              have hmem : ∀ x ∈ t, a < x := List.rel_of_sorted_cons hs
              rw [List.filter_cons]
              rw [if_neg (by simp)]
              rcases List.take_eq_nil_iff.mp htq with hQ | ht
              · subst hQ
                simp only [List.drop_succ_cons, List.drop_zero]
                exact List.filter_eq_self.mpr fun x hx => by
                  simpa using hmem x hx
              · subst ht
                simp
          | cons x xs =>
              simp only [List.cons_append, List.cons.injEq] at h
              obtain ⟨rfl, htq⟩ := h
              have hbt : b ∈ t := by
                have : b ∈ t.take Q := by rw [htq]; simp
                exact List.take_subset Q t this
              have hab : a < b := List.rel_of_sorted_cons hs b hbt
              rw [List.filter_cons]
              rw [if_neg (by simp; omega)]
              rw [List.drop_succ_cons]
              exact ih (List.sorted_cons.mp hs).2 Q xs b htq

theorem yieldsOf_append (xs ys : List PEv) :
    yieldsOf (xs ++ ys) = yieldsOf xs ++ yieldsOf ys := by
  simp [yieldsOf]

theorem yieldsOf_yielded_map (rs : List Record) :
    yieldsOf (rs.map PEv.yielded) = rs := by
  induction rs with
  | nil => rfl
  | cons r rs ih =>
      simp only [List.map_cons, yieldsOf, List.filterMap_cons] at ih ⊢
      rw [ih]

/-- Loop invariant of iter_data against the honest sorted server: started
at cursor c with more fuel than there are matching records past c, the
while loop terminates normally and yields exactly those records, in
order. -/
theorem iter_pages_sorted_complete (l : List Nat) (f : Nat → Nat)
    (hl : l.Sorted (· < ·)) (P : Nat) (hP : P ≠ 0) :
    ∀ (fuel : Nat) (c : Nat),
      (l.filter fun i => decide (c < i)).length < fuel →
      ∃ evs,
        iter_pages (serve_sorted l f) P (serve_sorted l f c P) fuel =
          (evs, .completed) ∧
        yieldsOf evs = (l.filter fun i => decide (c < i)).map (mkRec f) := by
  intro fuel
  induction fuel with
  | zero => intro c h; exact absurd h (Nat.not_lt_zero _)
  | succ n ih =>
      intro c hlen
      by_cases hs : (l.filter fun i => decide (c < i)) = []
      · refine ⟨[], ?_, by simp [yieldsOf, hs]⟩
        rw [show serve_sorted l f c P = .records [] from by
          simp [serve_sorted, hs]]
        rw [iter_pages]
      · set s := l.filter fun i => decide (c < i) with hsdef
        have hP1 : 1 ≤ P := Nat.one_le_iff_ne_zero.mpr hP
        have htake : s.take P ≠ [] := by
          intro hnil
          rcases List.take_eq_nil_iff.mp hnil with h0 | h0
          · exact hP h0
          · exact hs h0
        rcases List.eq_nil_or_concat (s.take P) with h0 | ⟨q, b, hqb⟩
        · exact absurd h0 htake
        rw [List.concat_eq_append] at hqb
        have hdata : (s.take P).map (mkRec f) ≠ [] := by
          intro hnil
          exact htake (by simpa using hnil)
        rcases hd : (s.take P).map (mkRec f) with _ | ⟨r, rs⟩
        · exact absurd hd hdata
        have hlast : lastRec r rs = mkRec f b := by
          apply lastRec_of_eq_concat r (mkRec f b) rs (q.map (mkRec f))
          rw [← hd, hqb]
          simp
        have hlastrid : (lastRec r rs).rid = some b := by rw [hlast]; rfl
        have hbmem : b ∈ s := List.take_subset P s (by rw [hqb]; simp)
        have hcb : c < b := by
          have := List.of_mem_filter (p := fun i => decide (c < i))
            (hsdef ▸ hbmem)
          simpa using this
        have hdrop : (l.filter fun i => decide (b < i)) = s.drop P := by
          rw [← filter_gt_of_filter_gt l c b hcb, ← hsdef]
          exact sorted_filter_gt_last_take s (hsdef ▸ hl.filter _) P q b hqb
        have hlen' : (l.filter fun i => decide (b < i)).length < n := by
          rw [hdrop, List.length_drop]
          have h1 : 0 < s.length := List.length_pos.mpr hs
          omega
        obtain ⟨evs', he', hy'⟩ := ih b hlen'
        refine ⟨(r :: rs).map PEv.yielded ++ PEv.requested b :: evs', ?_, ?_⟩
        · rw [show serve_sorted l f c P = .records (r :: rs) from by
            simp only [serve_sorted]
            rw [← hsdef, hd]]
          rw [iter_pages]
          rw [hlastrid]
          simp only [he']
        · rw [yieldsOf_append, yieldsOf_yielded_map]
          have hreq : yieldsOf (PEv.requested b :: evs') = yieldsOf evs' := by
            simp [yieldsOf]
          rw [hreq, hy', hdrop, ← hd]
          rw [← List.map_append, List.take_append_drop]

/-- C1: for a fixed filter matching the records with identifier list l
(unique, immutable, strictly ascending, all sorting after the all-zero
sentinel) and arbitrary payloads f, served in pages of size P ≠ 0 by a
server that honours the sort order, iter_data yields exactly those
records, each exactly once, in ascending identifier order, regardless of
P — and terminates normally (completed), with fuel any bound above the
number of pages; in particular with l = [] the first page is empty and
the iterator yields zero records and terminates without error. -/
theorem iter_data_sorted_complete (l : List Nat) (f : Nat → Nat)
    (P fuel : Nat) (hl : l.Sorted (· < ·)) (hpos : ∀ i ∈ l, 0 < i)
    (hP : P ≠ 0) (hfuel : l.length < fuel) :
    ∃ evs, iter_data (serve_sorted l f) P fuel = (evs, .completed) ∧
      yieldsOf evs = l.map (mkRec f) := by
  have h0 : (l.filter fun i => decide (0 < i)) = l :=
    List.filter_eq_self.mpr fun a ha => by simpa using hpos a ha
  obtain ⟨evs, he, hy⟩ := iter_pages_sorted_complete l f hl P hP fuel 0
    (by rw [h0]; exact hfuel)
  refine ⟨PEv.requested 0 :: evs, ?_, ?_⟩
  · simp only [iter_data, if_neg hP, he]
  · have hreq : yieldsOf (PEv.requested 0 :: evs) = yieldsOf evs := by
      simp [yieldsOf]
    rw [hreq, hy, h0]

/-- Witness for iter_data_sorted_complete: the empty result set with page
size 7, and the result set with identifiers 1, 2, 3 with page size 2
(pages of sizes 2, 1 and a terminating empty page). -/
theorem iter_data_sorted_complete_witness :
    (∃ evs, iter_data (serve_sorted [] fun i => i) 7 1 = (evs, .completed) ∧
      yieldsOf evs = List.map (mkRec fun i => i) []) ∧
    ∃ evs, iter_data (serve_sorted [1, 2, 3] fun i => i) 2 4 =
        (evs, .completed) ∧
      yieldsOf evs = List.map (mkRec fun i => i) [1, 2, 3] :=
  ⟨iter_data_sorted_complete [] (fun i => i) 7 1 (by simp) (by simp)
      (by decide) (by decide),
   iter_data_sorted_complete [1, 2, 3] (fun i => i) 2 4 (by decide)
      (by decide) (by decide) (by decide)⟩

end PyFolio
